import Mathlib

/-!
# OAuth web-flow component (`lwc/oAuthWebFlow/oAuthWebFlow.js`)

A shallow embedding of the `OAuthWebFlow` Lightning web component.

* The tracked fields of the class are the record `Component`.
* The browser's `sessionStorage` is an explicit key/value store that is passed
  in and returned by every handler that touches it.
* The Apex methods (`generatePkceData`, `generateAuthorizationUrlWithPkce`,
  `exchangeCodeForTokenWithPkce`, `getLimits`, `createAccount`) are the
  environment: every handler takes the answer of the backend as an argument
  (a function of the parameters it is called with) and returns, next to the new
  state, the list of backend calls it made, with their parameters.
* `JSON.stringify` / `JSON.parse` are platform functions; they are taken as the
  parameter `JsonCodec`.
* An `await` is modelled as a plain call: the handlers do not interleave.
* `console.log` / `console.error` have no effect on the state and are omitted.

Typing assumptions. The string-valued fields of the component and of the Apex
results (`accessToken`, `instanceUrl`, `codeVerifier`, ...) are strings and
`isSuccess` is a boolean; the optional `errorMessage` and the fields of a thrown
error may be absent. The record returned by `getLimits` is an arbitrary object
(`JsObject`). The entry `pkceData` of session storage, when `JSON.parse` accepts
it, is an object with the three string fields written by `generatePkce`.
`sessionStorage` calls and the navigation do not throw. `substring(0, 10)` is
`String.take 10`.
-/

namespace OAuthWebFlow

/-! ## JavaScript values -/

/-- JavaScript values that a backend record can carry (`undefined` is the
absence of the field). -/
inductive JsVal where
  | null
  | bool (b : Bool)
  | num (n : Int)
  | str (s : String)
  | obj (fields : List (String × JsVal))

/-- A plain JavaScript object: its fields in order. `[]` is `{}`. -/
abbrev JsObject := List (String × JsVal)

/-- Property read `o.key`; `none` is `undefined`. -/
def JsObject.field (o : JsObject) (key : String) : Option JsVal :=
  match o with
  | [] => none
  | (k, v) :: rest => if k = key then some v else JsObject.field rest key

/-- JavaScript truthiness. -/
def JsVal.truthy : JsVal → Bool
  | .null => false
  | .bool b => b
  | .num n => decide (n ≠ 0)
  | .str s => decide (s ≠ "")
  | .obj _ => true

/-- Truthiness of a property read (`undefined` is falsy). -/
def truthy : Option JsVal → Bool
  | none => false
  | some v => v.truthy

/-- String conversion used by a template literal. -/
def JsVal.render : JsVal → String
  | .null => "null"
  | .bool true => "true"
  | .bool false => "false"
  | .num n => toString n
  | .str s => s
  | .obj _ => "[object Object]"

/-- String conversion of a property read inside a template literal. -/
def render : Option JsVal → String
  | none => "undefined"
  | some v => v.render

/-- Template-literal conversion of an optional string field. -/
def renderStr : Option String → String
  | none => "undefined"
  | some s => s

/-- The expression `a || d` for an optional string `a` and a string `d`:
`a` when it is a non-empty string, `d` otherwise. -/
def jsOr (a : Option String) (d : String) : String :=
  match a with
  | some s => if s = "" then d else s
  | none => d

/-- A thrown error: `error.body?.message` and `error.message`. -/
structure JsError where
  bodyMessage : Option String
  message : Option String

/-- The object built by `new Error(msg)`. -/
def JsError.ofMessage (msg : String) : JsError :=
  { bodyMessage := none, message := some msg }

/-! ## Data model -/

/-- The object stored in `this.pkceData` by `generatePkce`. -/
structure PkceData where
  codeVerifier : String
  codeChallenge : String
  codeChallengeMethod : String
deriving DecidableEq

/-- The argument object of `exchangeCodeForTokenWithPkce`: `codeVerifier` is
`none` when the field is absent. -/
structure ExchangeParams where
  code : String
  codeVerifier : Option String
deriving DecidableEq

/-- The platform functions `JSON.stringify` and `JSON.parse` at the two places
the component uses them. `parsePkce` returns `none` when `JSON.parse` throws. -/
structure JsonCodec where
  stringifyPkce : PkceData → String
  parsePkce : String → Option PkceData
  stringifyParams : ExchangeParams → String

/-- The state carried by a page reference (`currentPageReference.state`). -/
structure PageState where
  code : Option String

/-- The tracked fields of the component, with their initial values in
`Component.init`. `pkceData = none` is the empty object `{}`; `tabset` is the
`activeTabValue` of the `lightning-tabset` element, `none` when the element is
not found by `querySelector`. -/
structure Component where
  currentStep : Nat
  authCode : String
  accessToken : String
  instanceUrl : String
  identity : JsObject
  request : String
  response : String
  accountId : String
  accountCreated : Bool
  usePkce : Bool
  pkceData : Option PkceData
  codeVerifier : String
  activeTab : String
  urlParams : Option PageState
  tabset : Option String

/-- Field initialisers of the class. -/
def Component.init (tabset : Option String) : Component :=
  { currentStep := 1
    authCode := ""
    accessToken := ""
    instanceUrl := ""
    identity := []
    request := ""
    response := ""
    accountId := ""
    accountCreated := false
    usePkce := false
    pkceData := none
    codeVerifier := ""
    activeTab := "step1"
    urlParams := none
    tabset := tabset }

/-! ## Session storage -/

/-- The browser's `sessionStorage`: `none` is `null` (no entry). -/
abbrev SessionStorage := String → Option String

/-- The call `sessionStorage.getItem(key)`. -/
def SessionStorage.getItem (s : SessionStorage) (key : String) : Option String :=
  s key

/-- The call `sessionStorage.setItem(key, value)`. -/
def SessionStorage.setItem (s : SessionStorage) (key value : String) : SessionStorage :=
  fun k => if k = key then some value else s k

/-- The call `sessionStorage.removeItem(key)`. -/
def SessionStorage.removeItem (s : SessionStorage) (key : String) : SessionStorage :=
  fun k => if k = key then none else s k

/-- A storage without entries. -/
def SessionStorage.empty : SessionStorage := fun _ => none

/-! ## Backend -/

/-- What `generatePkceData` resolves to. -/
structure PkceResult where
  isSuccess : Bool
  codeVerifier : String
  codeChallenge : String
  codeChallengeMethod : String
  errorMessage : Option String

/-- What `exchangeCodeForTokenWithPkce` resolves to. -/
structure ExchangeResult where
  isSuccess : Bool
  accessToken : String
  instanceUrl : String
  errorMessage : Option String

/-- What `createAccount` resolves to. -/
structure AccountResult where
  isSuccess : Bool
  accountId : String
  errorMessage : Option String

/-- Outcome of an awaited backend call: a resolved value or a rejection. -/
inductive Outcome (α : Type) where
  | resolved (value : α)
  | thrown (error : JsError)

/-- A call made by the component to the outside, with its parameters. -/
inductive Call where
  | generatePkceData
  | generateAuthorizationUrlWithPkce (usePkce : Bool) (codeChallenge codeChallengeMethod : String)
  | exchangeCodeForTokenWithPkce (params : ExchangeParams)
  | getLimits (accessToken instanceUrl : String)
  | createAccount (accountName accessToken instanceUrl : String)
  | navigate (url : String)
deriving DecidableEq

/-- State after a handler has run, and the calls it made, in order. -/
structure Result where
  comp : Component
  storage : SessionStorage
  calls : List Call

/-! ## Handlers -/

/-- The method `retrievePkceData`: restores the PKCE data from session storage
when a non-empty string is stored; a `JSON.parse` exception is caught. -/
def retrievePkceData (codec : JsonCodec) (c : Component) (s : SessionStorage) : Component :=
  match s.getItem "pkceData" with
  | none => c
  | some storedPkceData =>
    if storedPkceData = "" then c
    else
      match codec.parsePkce storedPkceData with
      | none => c
      | some parsed =>
        { c with pkceData := some parsed, usePkce := true, codeVerifier := parsed.codeVerifier }

/-- The method `connectedCallback`. -/
def connectedCallback (codec : JsonCodec) (c : Component) (s : SessionStorage) : Component :=
  retrievePkceData codec c s

/-- The wired method `getUrlParams`; `none` is a null page reference. -/
def getUrlParams (codec : JsonCodec) (currentPageReference : Option PageState)
    (c : Component) (s : SessionStorage) : Component :=
  match currentPageReference with
  | none => c
  | some state =>
    let c1 := { c with urlParams := some state }
    match state.code with
    | none => c1
    | some code =>
      if code = "" then c1
      else
        retrievePkceData codec
          { c1 with authCode := code, currentStep := 2, activeTab := "step2" } s

/-- The method `setActiveTab`: sets `activeTabValue` when the tabset exists. -/
def setActiveTab (tabValue : String) (c : Component) : Component :=
  match c.tabset with
  | some _ => { c with tabset := some tabValue }
  | none => c

/-- An entry of the table `tabSteps`. -/
structure TabStep where
  prev : Option String
  next : Option String

/-- The table `tabSteps`; `none` for a key that is not in it. -/
def tabSteps (tab : String) : Option TabStep :=
  if tab = "step1" then some { prev := none, next := some "step2" }
  else if tab = "step2" then some { prev := some "step1", next := some "step3" }
  else if tab = "step3" then some { prev := some "step2", next := some "step4" }
  else if tab = "step4" then some { prev := some "step3", next := none }
  else none

/-- The call `s.replace(pat, "")` on character lists: removes the first
occurrence of `pat`. -/
def removeFirst (pat : List Char) : List Char → List Char
  | [] => []
  | c :: cs =>
    if pat.isPrefixOf (c :: cs) then (c :: cs).drop pat.length
    else c :: removeFirst pat cs

/-- Value of the leading decimal digits, with the digits read so far in `acc`. -/
def leadingDigits : List Char → Option Nat → Option Nat
  | [], acc => acc
  | c :: cs, acc =>
    if c.isDigit then leadingDigits cs (some (acc.getD 0 * 10 + (c.toNat - 48)))
    else acc

/-- The call `parseInt(s)` for an unsigned string without leading blanks;
`none` is `NaN`. -/
def parseInt (s : List Char) : Option Nat :=
  leadingDigits s none

/-- The expression `parseInt(tab.replace("step", ""))`. The tabs it is applied
to are the four values of `tabSteps`, for which it is never `NaN`. -/
def stepNumber (tab : String) : Nat :=
  (parseInt (removeFirst "step".toList tab.toList)).getD 0

/-- The method `handleNextTab`; `currentTab` is `event.target.dataset.currentTab`.
For a key outside the table the property read throws and nothing is assigned. -/
def handleNextTab (currentTab : String) (c : Component) : Component :=
  match tabSteps currentTab with
  | none => c
  | some entry =>
    match entry.next with
    | some nextTab => { setActiveTab nextTab c with currentStep := stepNumber nextTab }
    | none => c

/-- The method `handlePreviousTab`. -/
def handlePreviousTab (currentTab : String) (c : Component) : Component :=
  match tabSteps currentTab with
  | none => c
  | some entry =>
    match entry.prev with
    | some prevTab => { setActiveTab prevTab c with currentStep := stepNumber prevTab }
    | none => c

/-- The method `handleAuthCodeChange`; `value` is `event.target.value`. -/
def handleAuthCodeChange (value : String) (c : Component) : Component :=
  { c with authCode := value }

/-- The method `handleUsePkceChange`; `checked` is `event.target.checked`. -/
def handleUsePkceChange (checked : Bool) (c : Component) (s : SessionStorage) :
    Component × SessionStorage :=
  let c1 := { c with usePkce := checked }
  if !c1.usePkce then ({ c1 with pkceData := none }, s.removeItem "pkceData")
  else (c1, s)

/-- The method `generatePkce`; `gen` is the outcome of `generatePkceData()`.
The second component is what the method returns (`ok`) or rethrows (`error`). -/
def generatePkce (codec : JsonCodec) (gen : Outcome PkceResult)
    (c : Component) (s : SessionStorage) : Result × Except JsError PkceData :=
  let c1 := { c with
    request := "Calling SFAuthenticationManager.generatePkceData"
    response := "Generating PKCE code verifier and challenge..." }
  let failed (error : JsError) : Result × Except JsError PkceData :=
    ({ comp := { c1 with
          response := "Error generating PKCE: " ++ jsOr error.message "Unknown error" }
       storage := s
       calls := [Call.generatePkceData] }, Except.error error)
  match gen with
  | .resolved result =>
    if result.isSuccess then
      let pkceData : PkceData :=
        { codeVerifier := result.codeVerifier
          codeChallenge := result.codeChallenge
          codeChallengeMethod := result.codeChallengeMethod }
      ({ comp := { c1 with
            pkceData := some pkceData
            codeVerifier := result.codeVerifier
            response := "PKCE data generated successfully:\nCode challenge: "
              ++ result.codeChallenge ++ "\nCode challenge method: "
              ++ result.codeChallengeMethod }
         storage := s.setItem "pkceData" (codec.stringifyPkce pkceData)
         calls := [Call.generatePkceData] }, Except.ok pkceData)
    else failed (JsError.ofMessage (jsOr result.errorMessage "PKCE generation failed"))
  | .thrown error => failed error

/-- The part of `handleAuthorize` after the PKCE block: asks the backend for
the authorization URL with the challenge computed so far and navigates to it. -/
def requestAuthorizationUrl (url : Bool → String → String → Outcome String)
    (codeChallenge codeChallengeMethod : String) (r : Result) : Result :=
  let call := Call.generateAuthorizationUrlWithPkce r.comp.usePkce codeChallenge codeChallengeMethod
  match url r.comp.usePkce codeChallenge codeChallengeMethod with
  | .resolved authUrl =>
    { r with
      comp := { r.comp with
        request := "GET " ++ authUrl
        response := "HTTP/1.1 302 Found\nLocation: " ++ authUrl }
      calls := r.calls ++ [call, Call.navigate authUrl] }
  | .thrown error =>
    { r with
      comp := { r.comp with
        response := "Error during authorization: " ++ jsOr error.message "Unknown error" }
      calls := r.calls ++ [call] }

/-- The method `handleAuthorize`; `gen` answers `generatePkceData()` and `url`
answers `generateAuthorizationUrlWithPkce(usePkce, codeChallenge, codeChallengeMethod)`. -/
def handleAuthorize (codec : JsonCodec) (gen : Outcome PkceResult)
    (url : Bool → String → String → Outcome String)
    (c : Component) (s : SessionStorage) : Result :=
  if c.usePkce then
    match generatePkce codec gen c s with
    | (r, .ok pkceData) =>
      requestAuthorizationUrl url pkceData.codeChallenge pkceData.codeChallengeMethod r
    | (r, .error _) => r
  else
    requestAuthorizationUrl url "" "" { comp := c, storage := s, calls := [] }

/-- The object `requestParams` built by `handleExchangeCode`. -/
def requestParams (c : Component) : ExchangeParams :=
  { code := c.authCode
    codeVerifier := if c.usePkce && decide (c.codeVerifier ≠ "") then some c.codeVerifier else none }

/-- The text `error.body?.message || error.message || "Unknown error occurred"`. -/
def errorText (error : JsError) : String :=
  jsOr error.bodyMessage (jsOr error.message "Unknown error occurred")

/-- The method `handleExchangeCode`; `exch` answers
`exchangeCodeForTokenWithPkce(requestParams)`. -/
def handleExchangeCode (codec : JsonCodec) (exch : ExchangeParams → Outcome ExchangeResult)
    (c : Component) (s : SessionStorage) : Result :=
  let c1 := { c with
    response := "Exchanging authorization code..."
    request := "Calling SFAuthenticationManager.exchangeCodeForTokenWithPkce with:\n"
      ++ codec.stringifyParams (requestParams c) }
  let calls := [Call.exchangeCodeForTokenWithPkce (requestParams c)]
  match exch (requestParams c) with
  | .resolved result =>
    if result.isSuccess then
      { comp := setActiveTab "step3" { c1 with
          accessToken := result.accessToken
          instanceUrl := result.instanceUrl
          response := "Successfully exchanged authorization code for access token"
          currentStep := 3 }
        storage := s.removeItem "pkceData"
        calls := calls }
    else
      { comp := { c1 with response := "Error: " ++ renderStr result.errorMessage }
        storage := s
        calls := calls }
  | .thrown error =>
    { comp := { c1 with response := "Error: " ++ errorText error }
      storage := s
      calls := calls }

/-- The method `handleFetchIdentity`; `limits` answers
`getLimits(accessToken, instanceUrl)`. -/
def handleFetchIdentity (limits : String → String → Outcome JsObject)
    (c : Component) (s : SessionStorage) : Result :=
  let c1 := { c with
    response := "Fetching identity information..."
    request := "Calling SFExternalCalloutWithToken.getLimits with:\nToken: "
      ++ c.accessToken.take 10 ++ "...\nInstance URL: " ++ c.instanceUrl }
  let calls := [Call.getLimits c.accessToken c.instanceUrl]
  match limits c.accessToken c.instanceUrl with
  | .resolved limitsData =>
    if !truthy (limitsData.field "error") then
      { comp := setActiveTab "step4" { c1 with
          identity := limitsData
          response := "Successfully fetched identity information"
          currentStep := 4 }
        storage := s
        calls := calls }
    else
      { comp := { c1 with response := "Error: " ++ render (limitsData.field "error") }
        storage := s
        calls := calls }
  | .thrown error =>
    { comp := { c1 with response := "Error: " ++ errorText error }
      storage := s
      calls := calls }

/-- The method `handleCreateAccount`; `create` answers
`createAccount(accountName, accessToken, instanceUrl)`. -/
def handleCreateAccount (create : String → String → String → Outcome AccountResult)
    (c : Component) (s : SessionStorage) : Result :=
  let c1 := { c with
    response := "Creating account..."
    accountCreated := false
    request := "Calling SFExternalCalloutWithToken.createAccount with:\nToken: "
      ++ c.accessToken.take 10 ++ "...\nInstance URL: " ++ c.instanceUrl }
  let calls := [Call.createAccount "LWC Created Account" c.accessToken c.instanceUrl]
  match create "LWC Created Account" c.accessToken c.instanceUrl with
  | .resolved accountResult =>
    if accountResult.isSuccess then
      { comp := { c1 with
          accountId := accountResult.accountId
          accountCreated := true
          response := "Successfully created account with ID: " ++ accountResult.accountId }
        storage := s
        calls := calls }
    else
      { comp := { c1 with response := "Error: " ++ renderStr accountResult.errorMessage }
        storage := s
        calls := calls }
  | .thrown error =>
    { comp := { c1 with response := "Error: " ++ errorText error }
      storage := s
      calls := calls }

/-! ## Concrete instances used to run the model -/

/-- Splits a character list at every occurrence of `sep`. -/
def splitAt (sep : Char) : List Char → List (List Char)
  | [] => [[]]
  | c :: cs =>
    if c = sep then [] :: splitAt sep cs
    else
      match splitAt sep cs with
      | piece :: pieces => (c :: piece) :: pieces
      | [] => [[c]]

/-- A codec that agrees with `JSON.stringify` and `JSON.parse` on objects whose
strings contain no character that JSON escapes (no quote, backslash or control
character): the compact form for the PKCE object, the two-space indented form
for the request parameters. -/
def plainJson : JsonCodec where
  stringifyPkce d :=
    "\x7b\"codeVerifier\":\"" ++ d.codeVerifier ++ "\",\"codeChallenge\":\"" ++ d.codeChallenge
      ++ "\",\"codeChallengeMethod\":\"" ++ d.codeChallengeMethod ++ "\"\x7d"
  parsePkce text :=
    match splitAt '"' text.toList with
    | [_, k1, _, v, _, k2, _, c, _, k3, _, m, _] =>
      if String.mk k1 = "codeVerifier" ∧ String.mk k2 = "codeChallenge"
          ∧ String.mk k3 = "codeChallengeMethod" then
        some { codeVerifier := String.mk v, codeChallenge := String.mk c,
               codeChallengeMethod := String.mk m }
      else none
    | _ => none
  stringifyParams p :=
    match p.codeVerifier with
    | some v => "\x7b\n  \"code\": \"" ++ p.code ++ "\",\n  \"codeVerifier\": \"" ++ v ++ "\"\n\x7d"
    | none => "\x7b\n  \"code\": \"" ++ p.code ++ "\"\n\x7d"

/-! ## Sequences of operations -/

/-- An operation on the component, with the answers of the backend to the
calls it makes. -/
inductive Op where
  | retrievePkceData
  | getUrlParams (currentPageReference : Option PageState)
  | handleNextTab (currentTab : String)
  | handlePreviousTab (currentTab : String)
  | handleAuthCodeChange (value : String)
  | handleUsePkceChange (checked : Bool)
  | handleAuthorize (gen : Outcome PkceResult) (url : Bool → String → String → Outcome String)
  | handleExchangeCode (exch : ExchangeParams → Outcome ExchangeResult)
  | handleFetchIdentity (limits : String → String → Outcome JsObject)
  | handleCreateAccount (create : String → String → String → Outcome AccountResult)

/-- The operation moves between tabs or reacts to the page URL (it is not a
step of the flow itself). -/
def Op.isNavigation : Op → Bool
  | .getUrlParams _ => true
  | .handleNextTab _ => true
  | .handlePreviousTab _ => true
  | _ => false

/-- Runs one operation. -/
def Op.apply (codec : JsonCodec) (op : Op) (c : Component) (s : SessionStorage) :
    Component × SessionStorage :=
  match op with
  | .retrievePkceData => (OAuthWebFlow.retrievePkceData codec c s, s)
  | .getUrlParams ref => (OAuthWebFlow.getUrlParams codec ref c s, s)
  | .handleNextTab tab => (OAuthWebFlow.handleNextTab tab c, s)
  | .handlePreviousTab tab => (OAuthWebFlow.handlePreviousTab tab c, s)
  | .handleAuthCodeChange value => (OAuthWebFlow.handleAuthCodeChange value c, s)
  | .handleUsePkceChange checked => OAuthWebFlow.handleUsePkceChange checked c s
  | .handleAuthorize gen url =>
    ((OAuthWebFlow.handleAuthorize codec gen url c s).comp,
     (OAuthWebFlow.handleAuthorize codec gen url c s).storage)
  | .handleExchangeCode exch =>
    ((OAuthWebFlow.handleExchangeCode codec exch c s).comp,
     (OAuthWebFlow.handleExchangeCode codec exch c s).storage)
  | .handleFetchIdentity limits =>
    ((OAuthWebFlow.handleFetchIdentity limits c s).comp,
     (OAuthWebFlow.handleFetchIdentity limits c s).storage)
  | .handleCreateAccount create =>
    ((OAuthWebFlow.handleCreateAccount create c s).comp,
     (OAuthWebFlow.handleCreateAccount create c s).storage)

/-- Runs a sequence of operations, first to last. -/
def run (codec : JsonCodec) : List Op → Component → SessionStorage → Component × SessionStorage
  | [], c, s => (c, s)
  | op :: ops, c, s => run codec ops (op.apply codec c s).1 (op.apply codec c s).2

/-! ## Predicates of the statements -/

/-- A failed exchange: a result whose `isSuccess` is false, or a rejection. -/
def exchangeFailed : Outcome ExchangeResult → Bool
  | .resolved result => !result.isSuccess
  | .thrown _ => true

/-- A failed `getLimits` as `handleFetchIdentity` tests it: a record whose
`error` is truthy, or a rejection. -/
def fetchFailed : Outcome JsObject → Bool
  | .resolved limitsData => truthy (limitsData.field "error")
  | .thrown _ => true

/-- The text starts with the prefix of the handlers' error messages. -/
def IsErrorMessage (text : String) : Prop :=
  ∃ detail : String, text = "Error: " ++ detail

/-- The request display string written by `handleExchangeCode`. -/
def exchangeRequestText (codec : JsonCodec) (c : Component) : String :=
  "Calling SFAuthenticationManager.exchangeCodeForTokenWithPkce with:\n"
    ++ codec.stringifyParams (requestParams c)

/-- The component and the storage hold generated PKCE material. -/
def HoldsPkce (c : Component) (s : SessionStorage) : Prop :=
  c.pkceData ≠ none ∧ c.codeVerifier ≠ "" ∧ s.getItem "pkceData" ≠ none

/-- The state after PKCE is switched off and on again. -/
def toggleOffOn (c : Component) (s : SessionStorage) : Component × SessionStorage :=
  handleUsePkceChange true (handleUsePkceChange false c s).1 (handleUsePkceChange false c s).2

/-- The object that `generatePkce` builds from a backend result. -/
def PkceResult.toPkceData (result : PkceResult) : PkceData :=
  { codeVerifier := result.codeVerifier
    codeChallenge := result.codeChallenge
    codeChallengeMethod := result.codeChallengeMethod }

/-- The state after `generatePkce` has run against the backend result `result`. -/
def afterGenerate (codec : JsonCodec) (result : PkceResult) (c : Component)
    (s : SessionStorage) : Result :=
  (generatePkce codec (.resolved result) c s).1

/-- The calls that follow `generateAuthorizationUrlWithPkce`: the navigation to
the URL when the backend resolved one. -/
def navigationCalls : Outcome String → List Call
  | .resolved authUrl => [Call.navigate authUrl]
  | .thrown _ => []

/-! ## Sample inputs -/

/-- The PKCE material of the scenario in the specification. -/
def samplePkce : PkceData :=
  { codeVerifier := "v1", codeChallenge := "c1", codeChallengeMethod := "S256" }

/-- A successful answer of `generatePkceData` carrying `samplePkce`. -/
def samplePkceResult : PkceResult :=
  { isSuccess := true, codeVerifier := "v1", codeChallenge := "c1",
    codeChallengeMethod := "S256", errorMessage := none }

/-- A component at step 2 holding the code `abc123`, PKCE off. -/
def atCode : Component :=
  { Component.init none with currentStep := 2, authCode := "abc123" }

/-- A component at step 2 holding the code `abc123` and `samplePkce`. -/
def atCodeWithPkce : Component :=
  { Component.init none with
    currentStep := 2, authCode := "abc123", usePkce := true,
    pkceData := some samplePkce, codeVerifier := "v1" }

/-- A storage holding `samplePkce` under `pkceData`. -/
def storedPkce : SessionStorage :=
  SessionStorage.empty.setItem "pkceData" (plainJson.stringifyPkce samplePkce)

/-- A backend that grants tokens for every code. -/
def grantTokens : ExchangeParams → Outcome ExchangeResult :=
  fun _ => .resolved
    { isSuccess := true, accessToken := "tok", instanceUrl := "https://inst",
      errorMessage := none }

/-- A backend that rejects every code. -/
def rejectCode : ExchangeParams → Outcome ExchangeResult :=
  fun _ => .resolved
    { isSuccess := false, accessToken := "", instanceUrl := "",
      errorMessage := some "invalid_grant" }

/-- A backend that builds a fixed authorization URL. -/
def sampleUrl : Bool → String → String → Outcome String :=
  fun _ _ _ => .resolved "https://login.example/authorize"

/-- A component at step 3 holding tokens. -/
def atIdentity : Component :=
  { Component.init none with
    currentStep := 3, accessToken := "tok", instanceUrl := "https://inst" }

/-- A `getLimits` answer without an `error` field. -/
def limitsOk : String → String → Outcome JsObject :=
  fun _ _ => .resolved [("DailyApiRequests", .obj [("Max", .num 15000)])]

/-- A `getLimits` answer whose `error` field is the empty string. -/
def limitsEmptyError : String → String → Outcome JsObject :=
  fun _ _ => .resolved [("error", .str "")]

/-- A `getLimits` answer whose `error` field is a message. -/
def limitsError : String → String → Outcome JsObject :=
  fun _ _ => .resolved [("error", .str "Session expired")]

/-- A component at step 2 whose authorization code is empty. -/
def atEmptyCode : Component :=
  { Component.init none with currentStep := 2 }

/-- A component at step 4 holding tokens. -/
def atComplete : Component :=
  { Component.init none with
    currentStep := 4, accessToken := "tok", instanceUrl := "https://inst" }

/-- A component with PKCE switched on before any material was generated. -/
def pkceOnNoVerifier : Component :=
  { Component.init none with currentStep := 2, authCode := "abc123", usePkce := true }

/-- The request display string written by `handleFetchIdentity`. -/
def fetchRequestText (c : Component) : String :=
  "Calling SFExternalCalloutWithToken.getLimits with:\nToken: "
    ++ c.accessToken.take 10 ++ "...\nInstance URL: " ++ c.instanceUrl

/-! ## Storage lemmas -/

/-- After `removeItem(key)` the key has no entry. -/
theorem getItem_removeItem (s : SessionStorage) (key : String) :
    (s.removeItem key).getItem key = none := by
  simp [SessionStorage.getItem, SessionStorage.removeItem]

/-- After `setItem(key, value)` the key holds `value`. -/
theorem getItem_setItem (s : SessionStorage) (key value : String) :
    (s.setItem key value).getItem key = some value := by
  simp [SessionStorage.getItem, SessionStorage.setItem]

/-! ## The codec `plainJson` -/

/-- A list without the separator is a single piece. -/
theorem splitAt_no_sep (sep : Char) (xs : List Char) (h : sep ∉ xs) :
    splitAt sep xs = [xs] := by
  induction xs with
  | nil => rfl
  | cons x xs ih =>
    have hx : x ≠ sep := fun e => h (e ▸ List.mem_cons_self _ _)
    have hxs : sep ∉ xs := fun e => h (List.mem_cons_of_mem _ e)
    simp [splitAt, hx, ih hxs]

/-- The first piece ends at the first separator. -/
theorem splitAt_append_sep (sep : Char) (xs ys : List Char) (h : sep ∉ xs) :
    splitAt sep (xs ++ sep :: ys) = xs :: splitAt sep ys := by
  induction xs with
  | nil => simp [splitAt]
  | cons x xs ih =>
    have hx : x ≠ sep := fun e => h (e ▸ List.mem_cons_self _ _)
    have hxs : sep ∉ xs := fun e => h (List.mem_cons_of_mem _ e)
    simp [splitAt, hx, ih hxs]

/-- On strings without a double quote, `plainJson.parsePkce` inverts
`plainJson.stringifyPkce`. -/
theorem plainJson_roundtrip (d : PkceData)
    (hv : '"' ∉ d.codeVerifier.toList) (hc : '"' ∉ d.codeChallenge.toList)
    (hm : '"' ∉ d.codeChallengeMethod.toList) :
    plainJson.parsePkce (plainJson.stringifyPkce d) = some d := by
  obtain ⟨⟨v⟩, ⟨c⟩, ⟨m⟩⟩ := d
  simp only [String.toList] at hv hc hm
  have key : (plainJson.stringifyPkce ⟨⟨v⟩, ⟨c⟩, ⟨m⟩⟩).toList
      = ['\x7b'] ++ '"' :: ("codeVerifier".toList ++ '"' :: ([':'] ++ '"' :: (v ++ '"' ::
        ([','] ++ '"' :: ("codeChallenge".toList ++ '"' :: ([':'] ++ '"' :: (c ++ '"' ::
        ([','] ++ '"' :: ("codeChallengeMethod".toList ++ '"' :: ([':'] ++ '"' :: (m ++ '"' ::
        ['\x7d']))))))))))) := by
    show (((((['\x7b', '"'] ++ "codeVerifier".toList ++ ['"', ':', '"']) ++ v)
      ++ (['"', ',', '"'] ++ "codeChallenge".toList ++ ['"', ':', '"'])) ++ c)
      ++ (['"', ',', '"'] ++ "codeChallengeMethod".toList ++ ['"', ':', '"'])) ++ m
      ++ ['"', '\x7d'] = _
    simp only [List.append_assoc, List.cons_append, List.nil_append]
  unfold plainJson
  simp only
  have key2 := key
  unfold plainJson at key2
  simp only at key2
  rw [key2]
  have h1 : '"' ∉ ['\x7b'] := by decide
  have h2 : '"' ∉ "codeVerifier".toList := by decide
  have h3 : '"' ∉ [':'] := by decide
  have h4 : '"' ∉ [','] := by decide
  have h5 : '"' ∉ "codeChallenge".toList := by decide
  have h6 : '"' ∉ "codeChallengeMethod".toList := by decide
  have h7 : '"' ∉ ['\x7d'] := by decide
  simp only [splitAt_append_sep, splitAt_no_sep, h1, h2, h3, h4, h5, h6, h7, hv, hc, hm,
    not_false_eq_true]
  simp

/-! ## Lemmas on the code exchange -/

/-- The only call of `handleExchangeCode` is the exchange with `requestParams`. -/
theorem exchange_calls (codec : JsonCodec)
    (exch : ExchangeParams → Outcome ExchangeResult) (c : Component) (s : SessionStorage) :
    (handleExchangeCode codec exch c s).calls
      = [Call.exchangeCodeForTokenWithPkce (requestParams c)] := by
  unfold handleExchangeCode
  cases exch (requestParams c) with
  | resolved result => cases hs : result.isSuccess <;> simp only [hs] <;> rfl
  | thrown error => rfl

/-- On a failed exchange only `request` and `response` are assigned. -/
theorem exchange_failed (codec : JsonCodec)
    (exch : ExchangeParams → Outcome ExchangeResult) (c : Component) (s : SessionStorage)
    (hfail : exchangeFailed (exch (requestParams c)) = true) :
    (handleExchangeCode codec exch c s).storage = s
    ∧ (handleExchangeCode codec exch c s).comp =
        { c with request := exchangeRequestText codec c,
                 response := (handleExchangeCode codec exch c s).comp.response }
    ∧ IsErrorMessage (handleExchangeCode codec exch c s).comp.response := by
  unfold handleExchangeCode
  cases hout : exch (requestParams c) with
  | resolved result =>
    rw [hout] at hfail
    have hs : result.isSuccess = false := by simpa [exchangeFailed] using hfail
    simp only [hs]
    exact ⟨rfl, rfl, ⟨_, rfl⟩⟩
  | thrown error =>
    exact ⟨rfl, rfl, ⟨_, rfl⟩⟩

/-- The state written by `handleExchangeCode` on a successful exchange. -/
theorem exchange_succeeded (codec : JsonCodec)
    (exch : ExchangeParams → Outcome ExchangeResult) (c : Component) (s : SessionStorage)
    (hok : exchangeFailed (exch (requestParams c)) = false) :
    ∃ result, exch (requestParams c) = .resolved result ∧ result.isSuccess = true
      ∧ (handleExchangeCode codec exch c s).storage = s.removeItem "pkceData"
      ∧ (handleExchangeCode codec exch c s).comp =
        setActiveTab "step3" { c with
          request := exchangeRequestText codec c
          accessToken := result.accessToken
          instanceUrl := result.instanceUrl
          response := "Successfully exchanged authorization code for access token"
          currentStep := 3 } := by
  unfold handleExchangeCode
  cases hout : exch (requestParams c) with
  | resolved result =>
    rw [hout] at hok
    have hs : result.isSuccess = true := by simpa [exchangeFailed] using hok
    exact ⟨result, rfl, hs, by simp only [hs]; rfl, by simp only [hs]; rfl⟩
  | thrown error =>
    rw [hout] at hok
    simp [exchangeFailed] at hok

/-- The method `setActiveTab` only touches the tabset element. -/
theorem setActiveTab_frame (tab : String) (c : Component) :
    (setActiveTab tab c).currentStep = c.currentStep
    ∧ (setActiveTab tab c).accessToken = c.accessToken
    ∧ (setActiveTab tab c).instanceUrl = c.instanceUrl
    ∧ (setActiveTab tab c).identity = c.identity
    ∧ (setActiveTab tab c).pkceData = c.pkceData
    ∧ (setActiveTab tab c).codeVerifier = c.codeVerifier
    ∧ (setActiveTab tab c).response = c.response := by
  unfold setActiveTab
  cases c.tabset <;> exact ⟨rfl, rfl, rfl, rfl, rfl, rfl, rfl⟩

/-! ## Code exchange -/

/-- C1: when the backend answers `handleExchangeCode` with a failure (a result
with `isSuccess` false, or a rejection), session storage is untouched and the
component differs from the one before the call only in `request` and
`response`; `response` is an error message. In particular `currentStep`,
`accessToken`, `instanceUrl`, `authCode`, `pkceData` and `codeVerifier` keep
their values. -/
theorem handleExchangeCode_failure_atomic (codec : JsonCodec)
    (exch : ExchangeParams → Outcome ExchangeResult) (c : Component) (s : SessionStorage)
    (hfail : exchangeFailed (exch (requestParams c)) = true) :
    (handleExchangeCode codec exch c s).storage = s
    ∧ (handleExchangeCode codec exch c s).comp =
        { c with request := exchangeRequestText codec c,
                 response := (handleExchangeCode codec exch c s).comp.response }
    ∧ IsErrorMessage (handleExchangeCode codec exch c s).comp.response
    ∧ (handleExchangeCode codec exch c s).comp.currentStep = c.currentStep
    ∧ (handleExchangeCode codec exch c s).comp.accessToken = c.accessToken
    ∧ (handleExchangeCode codec exch c s).comp.instanceUrl = c.instanceUrl
    ∧ (handleExchangeCode codec exch c s).comp.authCode = c.authCode
    ∧ (handleExchangeCode codec exch c s).comp.pkceData = c.pkceData
    ∧ (handleExchangeCode codec exch c s).comp.codeVerifier = c.codeVerifier := by
  obtain ⟨h1, h2, h3⟩ := exchange_failed codec exch c s hfail
  refine ⟨h1, h2, h3, ?_, ?_, ?_, ?_, ?_, ?_⟩ <;> rw [h2]

/-- Witness of C1: a backend that rejects the code `abc123` with a message. -/
theorem handleExchangeCode_failure_atomic_witness :
    exchangeFailed (rejectCode (requestParams atCode)) = true
    ∧ (handleExchangeCode plainJson rejectCode atCode SessionStorage.empty).comp.currentStep = 2
    ∧ (handleExchangeCode plainJson rejectCode atCode SessionStorage.empty).comp.response
        = "Error: invalid_grant" :=
  ⟨rfl,
   (handleExchangeCode_failure_atomic plainJson rejectCode atCode
      SessionStorage.empty rfl).2.2.2.1,
   by decide⟩

/-- C2: when the backend answers `handleExchangeCode` with a result whose
`isSuccess` is true, `accessToken` and `instanceUrl` are those of the result
and `currentStep` is 3. -/
theorem handleExchangeCode_success (codec : JsonCodec)
    (exch : ExchangeParams → Outcome ExchangeResult) (c : Component) (s : SessionStorage)
    (result : ExchangeResult)
    (hout : exch (requestParams c) = .resolved result) (hs : result.isSuccess = true) :
    (handleExchangeCode codec exch c s).comp.accessToken = result.accessToken
    ∧ (handleExchangeCode codec exch c s).comp.instanceUrl = result.instanceUrl
    ∧ (handleExchangeCode codec exch c s).comp.currentStep = 3 := by
  unfold handleExchangeCode
  simp only [hout, hs, setActiveTab]
  cases c.tabset <;> exact ⟨rfl, rfl, rfl⟩

/-- Witness of C2: the scenario of the specification, code `abc123`. -/
theorem handleExchangeCode_success_witness :
    (handleExchangeCode plainJson grantTokens atCode SessionStorage.empty).comp.accessToken
      = "tok"
    ∧ (handleExchangeCode plainJson grantTokens atCode SessionStorage.empty).comp.instanceUrl
      = "https://inst"
    ∧ (handleExchangeCode plainJson grantTokens atCode SessionStorage.empty).comp.currentStep
      = 3 :=
  handleExchangeCode_success plainJson grantTokens atCode SessionStorage.empty
    ⟨true, "tok", "https://inst", none⟩ rfl rfl

/-- C3 fails as stated: with `samplePkce` held in the component and in session
storage, a successful exchange leaves `pkceData` and `codeVerifier` of the
component as they were; only the storage entry is removed. -/
theorem handleExchangeCode_keeps_memory_pkce :
    HoldsPkce atCodeWithPkce storedPkce
    ∧ exchangeFailed (grantTokens (requestParams atCodeWithPkce)) = false
    ∧ (handleExchangeCode plainJson grantTokens atCodeWithPkce storedPkce).comp.pkceData
        = some samplePkce
    ∧ (handleExchangeCode plainJson grantTokens atCodeWithPkce storedPkce).comp.codeVerifier
        = "v1"
    ∧ ¬ ((handleExchangeCode plainJson grantTokens atCodeWithPkce storedPkce).storage.getItem
            "pkceData" = none
        ∧ (handleExchangeCode plainJson grantTokens atCodeWithPkce storedPkce).comp.pkceData
            = none
        ∧ (handleExchangeCode plainJson grantTokens atCodeWithPkce storedPkce).comp.codeVerifier
            = "") := by
  refine ⟨?_, rfl, rfl, rfl, ?_⟩
  · unfold HoldsPkce
    decide
  · decide

/-- C3 (amended): after `handleExchangeCode` completes with a successful
backend result, session storage has no `pkceData` entry; the exchange does not
empty the component's in-memory `codeVerifier`, which keeps its value. -/
theorem handleExchangeCode_success_clears_storage (codec : JsonCodec)
    (exch : ExchangeParams → Outcome ExchangeResult) (c : Component) (s : SessionStorage)
    (hok : exchangeFailed (exch (requestParams c)) = false) :
    (handleExchangeCode codec exch c s).storage.getItem "pkceData" = none
    ∧ (handleExchangeCode codec exch c s).comp.codeVerifier = c.codeVerifier := by
  obtain ⟨result, _, _, hst, hc⟩ := exchange_succeeded codec exch c s hok
  rw [hst, hc]
  obtain ⟨_, _, _, _, _, h6, _⟩ := setActiveTab_frame "step3" { c with
          request := exchangeRequestText codec c
          accessToken := result.accessToken
          instanceUrl := result.instanceUrl
          response := "Successfully exchanged authorization code for access token"
          currentStep := 3 }
  exact ⟨getItem_removeItem s "pkceData", h6⟩

/-- Witness of C3 (amended): the stored `samplePkce` is gone after the exchange. -/
theorem handleExchangeCode_success_clears_storage_witness :
    storedPkce.getItem "pkceData" ≠ none
    ∧ (handleExchangeCode plainJson grantTokens atCodeWithPkce storedPkce).storage.getItem
        "pkceData" = none :=
  ⟨by decide,
   (handleExchangeCode_success_clears_storage plainJson grantTokens atCodeWithPkce
      storedPkce rfl).1⟩

/-! ## PKCE material -/

/-- The state written by `generatePkce` on a successful backend result. -/
theorem generatePkce_success (codec : JsonCodec) (result : PkceResult) (c : Component)
    (s : SessionStorage) (hs : result.isSuccess = true) :
    generatePkce codec (.resolved result) c s =
      ({ comp := { c with
            request := "Calling SFAuthenticationManager.generatePkceData"
            pkceData := some result.toPkceData
            codeVerifier := result.codeVerifier
            response := "PKCE data generated successfully:\nCode challenge: "
              ++ result.codeChallenge ++ "\nCode challenge method: "
              ++ result.codeChallengeMethod }
         storage := s.setItem "pkceData" (codec.stringifyPkce result.toPkceData)
         calls := [Call.generatePkceData] }, Except.ok result.toPkceData) := by
  unfold generatePkce
  simp only [hs]
  rfl

/-- With PKCE on and a non-empty verifier, `requestParams` carries the verifier. -/
theorem requestParams_verifier (c : Component) (hp : c.usePkce = true)
    (hv : c.codeVerifier ≠ "") :
    requestParams c = { code := c.authCode, codeVerifier := some c.codeVerifier } := by
  simp [requestParams, hp, hv]

/-- C4 fails as stated: after a successful `generatePkce` that produced the
verifier `v1`, switching PKCE off and on again and then exchanging a code sends
the old verifier `v1`, although no fresh material was generated. -/
theorem reenabled_pkce_sends_old_verifier :
    (afterGenerate plainJson samplePkceResult
        { Component.init none with usePkce := true } SessionStorage.empty).comp.codeVerifier
      = "v1"
    ∧ (handleExchangeCode plainJson grantTokens
        (toggleOffOn
          (afterGenerate plainJson samplePkceResult
            { Component.init none with usePkce := true } SessionStorage.empty).comp
          (afterGenerate plainJson samplePkceResult
            { Component.init none with usePkce := true } SessionStorage.empty).storage).1
        (toggleOffOn
          (afterGenerate plainJson samplePkceResult
            { Component.init none with usePkce := true } SessionStorage.empty).comp
          (afterGenerate plainJson samplePkceResult
            { Component.init none with usePkce := true } SessionStorage.empty).storage).2).calls
      = [Call.exchangeCodeForTokenWithPkce { code := "", codeVerifier := some "v1" }] := by
  decide

/-- C4 (amended): after a successful `generatePkce` that produced the verifier
`v`, `handleUsePkceChange(false)` removes `pkceData` from session storage and
empties `pkceData`, but keeps `codeVerifier = v`. When PKCE is then enabled
again, `handleExchangeCode` sends the verifier the component currently holds:
the old `v` (when it is non-empty) if nothing was generated since, and the
verifier of the latest successful `generatePkce` once fresh material was
generated. -/
theorem disable_pkce_clears_storage_keeps_verifier (codec : JsonCodec) (result : PkceResult)
    (c : Component) (s : SessionStorage) (hs : result.isSuccess = true) :
    (handleUsePkceChange false (afterGenerate codec result c s).comp
        (afterGenerate codec result c s).storage).2.getItem "pkceData" = none
    ∧ (handleUsePkceChange false (afterGenerate codec result c s).comp
        (afterGenerate codec result c s).storage).1.pkceData = none
    ∧ (handleUsePkceChange false (afterGenerate codec result c s).comp
        (afterGenerate codec result c s).storage).1.codeVerifier = result.codeVerifier
    ∧ (∀ exch : ExchangeParams → Outcome ExchangeResult, result.codeVerifier ≠ "" →
        (handleExchangeCode codec exch
          (toggleOffOn (afterGenerate codec result c s).comp
            (afterGenerate codec result c s).storage).1
          (toggleOffOn (afterGenerate codec result c s).comp
            (afterGenerate codec result c s).storage).2).calls
        = [Call.exchangeCodeForTokenWithPkce
            { code := c.authCode, codeVerifier := some result.codeVerifier }])
    ∧ (∀ (exch : ExchangeParams → Outcome ExchangeResult) (fresh : PkceResult),
        fresh.isSuccess = true → fresh.codeVerifier ≠ "" →
        (handleExchangeCode codec exch
          (afterGenerate codec fresh
            (toggleOffOn (afterGenerate codec result c s).comp
              (afterGenerate codec result c s).storage).1
            (toggleOffOn (afterGenerate codec result c s).comp
              (afterGenerate codec result c s).storage).2).comp
          (afterGenerate codec fresh
            (toggleOffOn (afterGenerate codec result c s).comp
              (afterGenerate codec result c s).storage).1
            (toggleOffOn (afterGenerate codec result c s).comp
              (afterGenerate codec result c s).storage).2).storage).calls
        = [Call.exchangeCodeForTokenWithPkce
            { code := c.authCode, codeVerifier := some fresh.codeVerifier }]) := by
  have hg : afterGenerate codec result c s = _ :=
    congrArg Prod.fst (generatePkce_success codec result c s hs)
  rw [hg]
  refine ⟨?_, rfl, rfl, ?_, ?_⟩
  · simp [handleUsePkceChange, getItem_removeItem]
  · intro exch hv
    rw [exchange_calls, requestParams_verifier _ rfl hv]
    rfl
  · intro exch fresh hfs hfv
    have hf := fun c' s' => congrArg Prod.fst (generatePkce_success codec fresh c' s' hfs)
    unfold afterGenerate
    rw [hf, exchange_calls, requestParams_verifier _ rfl hfv]
    rfl

/-- Witness of C4 (amended): `samplePkceResult` generated from the initial
component with PKCE enabled. -/
theorem disable_pkce_clears_storage_keeps_verifier_witness :
    samplePkceResult.isSuccess = true
    ∧ (handleUsePkceChange false
        (afterGenerate plainJson samplePkceResult
          { Component.init none with usePkce := true } SessionStorage.empty).comp
        (afterGenerate plainJson samplePkceResult
          { Component.init none with usePkce := true } SessionStorage.empty).storage).1.codeVerifier
      = "v1" :=
  ⟨rfl,
   (disable_pkce_clears_storage_keeps_verifier plainJson samplePkceResult
      { Component.init none with usePkce := true } SessionStorage.empty rfl).2.2.1⟩

/-- The state restored by `retrievePkceData` from a stored text that parses. -/
theorem retrievePkceData_stored (codec : JsonCodec) (c : Component) (s : SessionStorage)
    (text : String) (d : PkceData) (hget : s.getItem "pkceData" = some text)
    (hne : text ≠ "") (hparse : codec.parsePkce text = some d) :
    retrievePkceData codec c s =
      { c with pkceData := some d, usePkce := true, codeVerifier := d.codeVerifier } := by
  unfold retrievePkceData
  simp only [hget, hne, hparse, if_false]

/-- Calls and storage of `handleAuthorize` with PKCE on and a successful
backend PKCE result. -/
theorem handleAuthorize_pkce_success (codec : JsonCodec) (result : PkceResult)
    (url : Bool → String → String → Outcome String) (c : Component) (s : SessionStorage)
    (hp : c.usePkce = true) (hs : result.isSuccess = true) :
    (handleAuthorize codec (.resolved result) url c s).calls
      = Call.generatePkceData
        :: Call.generateAuthorizationUrlWithPkce true result.codeChallenge
            result.codeChallengeMethod
        :: navigationCalls (url true result.codeChallenge result.codeChallengeMethod)
    ∧ (handleAuthorize codec (.resolved result) url c s).storage
      = s.setItem "pkceData" (codec.stringifyPkce result.toPkceData) := by
  unfold handleAuthorize
  rw [if_pos hp, generatePkce_success codec result c s hs]
  simp only [requestAuthorizationUrl, hp, PkceResult.toPkceData]
  cases url true result.codeChallenge result.codeChallengeMethod <;> exact ⟨rfl, rfl⟩

/-- C5: with PKCE enabled and a successful backend PKCE result `v, c, m` with
`v` non-empty, `handleAuthorize` calls `generateAuthorizationUrlWithPkce` with
exactly `(true, c, m)` and stores the serialised object of `v, c, m` under the
session-storage key `pkceData`. Provided `JSON.parse` inverts `JSON.stringify`
on that object (and the serialised text is non-empty), a freshly initialised
component that runs `retrievePkceData` on that storage holds the same three
fields, and `handleExchangeCode` then sends `codeVerifier = v`, also when the
code arrived through `getUrlParams` after `connectedCallback`. -/
theorem pkce_binding_survives_redirect (codec : JsonCodec) (result : PkceResult)
    (url : Bool → String → String → Outcome String) (c : Component) (s : SessionStorage)
    (hp : c.usePkce = true) (hs : result.isSuccess = true) (hv : result.codeVerifier ≠ "")
    (hround : codec.parsePkce (codec.stringifyPkce result.toPkceData) = some result.toPkceData)
    (hne : codec.stringifyPkce result.toPkceData ≠ "") :
    (handleAuthorize codec (.resolved result) url c s).calls
      = Call.generatePkceData
        :: Call.generateAuthorizationUrlWithPkce true result.codeChallenge
            result.codeChallengeMethod
        :: navigationCalls (url true result.codeChallenge result.codeChallengeMethod)
    ∧ (handleAuthorize codec (.resolved result) url c s).storage.getItem "pkceData"
      = some (codec.stringifyPkce result.toPkceData)
    ∧ (∀ tabset : Option String,
        (retrievePkceData codec (Component.init tabset)
          (handleAuthorize codec (.resolved result) url c s).storage).pkceData
        = some { codeVerifier := result.codeVerifier, codeChallenge := result.codeChallenge,
                 codeChallengeMethod := result.codeChallengeMethod })
    ∧ (∀ (tabset : Option String) (exch : ExchangeParams → Outcome ExchangeResult),
        (handleExchangeCode codec exch
          (retrievePkceData codec (Component.init tabset)
            (handleAuthorize codec (.resolved result) url c s).storage)
          (handleAuthorize codec (.resolved result) url c s).storage).calls
        = [Call.exchangeCodeForTokenWithPkce
            { code := "", codeVerifier := some result.codeVerifier }])
    ∧ (∀ (tabset : Option String) (exch : ExchangeParams → Outcome ExchangeResult)
        (code : String), code ≠ "" →
        (handleExchangeCode codec exch
          (getUrlParams codec (some { code := some code })
            (connectedCallback codec (Component.init tabset)
              (handleAuthorize codec (.resolved result) url c s).storage)
            (handleAuthorize codec (.resolved result) url c s).storage)
          (handleAuthorize codec (.resolved result) url c s).storage).calls
        = [Call.exchangeCodeForTokenWithPkce
            { code := code, codeVerifier := some result.codeVerifier }]) := by
  obtain ⟨hcalls, hst⟩ := handleAuthorize_pkce_success codec result url c s hp hs
  have hget : (handleAuthorize codec (.resolved result) url c s).storage.getItem "pkceData"
      = some (codec.stringifyPkce result.toPkceData) := by
    rw [hst]; exact getItem_setItem _ _ _
  have hret := fun c' => retrievePkceData_stored codec c'
    (handleAuthorize codec (.resolved result) url c s).storage _ _ hget hne hround
  refine ⟨hcalls, hget, ?_, ?_, ?_⟩
  · intro tabset
    rw [hret]
    rfl
  · intro tabset exch
    rw [exchange_calls, hret, requestParams_verifier _ rfl hv]
    rfl
  · intro tabset exch code hcode
    rw [exchange_calls]
    unfold getUrlParams connectedCallback
    simp only [hcode, if_false, hret]
    rw [requestParams_verifier _ rfl hv]
    rfl

/-- Witness of C5: the scenario of the specification (`v1`, `c1`, `S256`) with
the codec `plainJson`. -/
theorem pkce_binding_survives_redirect_witness :
    plainJson.parsePkce (plainJson.stringifyPkce samplePkceResult.toPkceData)
      = some samplePkceResult.toPkceData
    ∧ (handleExchangeCode plainJson grantTokens
        (retrievePkceData plainJson (Component.init none)
          (handleAuthorize plainJson (.resolved samplePkceResult) sampleUrl
            { Component.init none with usePkce := true } SessionStorage.empty).storage)
        (handleAuthorize plainJson (.resolved samplePkceResult) sampleUrl
          { Component.init none with usePkce := true } SessionStorage.empty).storage).calls
      = [Call.exchangeCodeForTokenWithPkce { code := "", codeVerifier := some "v1" }] :=
  ⟨by decide,
   (pkce_binding_survives_redirect plainJson samplePkceResult sampleUrl
      { Component.init none with usePkce := true } SessionStorage.empty rfl rfl
      (by decide) (by decide) (by decide)).2.2.2.1 none grantTokens⟩

/-! ## Lemmas on the identity fetch -/

/-- On a failed identity fetch only `request` and `response` are assigned. -/
theorem fetch_failed (limits : String → String → Outcome JsObject) (c : Component)
    (s : SessionStorage) (hfail : fetchFailed (limits c.accessToken c.instanceUrl) = true) :
    (handleFetchIdentity limits c s).comp =
        { c with request := fetchRequestText c,
                 response := (handleFetchIdentity limits c s).comp.response }
    ∧ IsErrorMessage (handleFetchIdentity limits c s).comp.response := by
  unfold handleFetchIdentity
  cases hout : limits c.accessToken c.instanceUrl with
  | resolved limitsData =>
    rw [hout] at hfail
    have ht : truthy (limitsData.field "error") = true := by simpa [fetchFailed] using hfail
    simp only [ht]
    exact ⟨rfl, ⟨_, rfl⟩⟩
  | thrown error =>
    exact ⟨rfl, ⟨_, rfl⟩⟩

/-- The state written by `handleFetchIdentity` on the success path. -/
theorem fetch_succeeded (limits : String → String → Outcome JsObject) (c : Component)
    (s : SessionStorage) (hok : fetchFailed (limits c.accessToken c.instanceUrl) = false) :
    ∃ limitsData, limits c.accessToken c.instanceUrl = .resolved limitsData
      ∧ truthy (limitsData.field "error") = false
      ∧ (handleFetchIdentity limits c s).comp =
        setActiveTab "step4" { c with
          request := fetchRequestText c
          identity := limitsData
          response := "Successfully fetched identity information"
          currentStep := 4 } := by
  unfold handleFetchIdentity
  cases hout : limits c.accessToken c.instanceUrl with
  | resolved limitsData =>
    rw [hout] at hok
    have ht : truthy (limitsData.field "error") = false := by simpa [fetchFailed] using hok
    exact ⟨limitsData, rfl, ht, by simp only [ht]; rfl⟩
  | thrown error =>
    rw [hout] at hok
    simp [fetchFailed] at hok

/-! ## Lemmas on `currentStep` -/

/-- The step after `handleExchangeCode`: 3 on success, unchanged otherwise. -/
theorem exchange_currentStep (codec : JsonCodec)
    (exch : ExchangeParams → Outcome ExchangeResult) (c : Component) (s : SessionStorage) :
    (handleExchangeCode codec exch c s).comp.currentStep
      = if exchangeFailed (exch (requestParams c)) = true then c.currentStep else 3 := by
  cases h : exchangeFailed (exch (requestParams c)) with
  | true =>
    rw [(exchange_failed codec exch c s h).2.1]
    rfl
  | false =>
    obtain ⟨result, _, _, _, hc⟩ := exchange_succeeded codec exch c s h
    rw [hc, (setActiveTab_frame _ _).1]
    rfl

/-- The step after `handleFetchIdentity`: 4 on success, unchanged otherwise. -/
theorem fetch_currentStep (limits : String → String → Outcome JsObject) (c : Component)
    (s : SessionStorage) :
    (handleFetchIdentity limits c s).comp.currentStep
      = if fetchFailed (limits c.accessToken c.instanceUrl) = true then c.currentStep
        else 4 := by
  cases h : fetchFailed (limits c.accessToken c.instanceUrl) with
  | true =>
    rw [(fetch_failed limits c s h).1]
    rfl
  | false =>
    obtain ⟨limitsData, _, _, hc⟩ := fetch_succeeded limits c s h
    rw [hc, (setActiveTab_frame _ _).1]
    rfl

/-- The method `retrievePkceData` does not change the step. -/
theorem retrievePkceData_currentStep (codec : JsonCodec) (c : Component) (s : SessionStorage) :
    (retrievePkceData codec c s).currentStep = c.currentStep := by
  unfold retrievePkceData
  split
  · rfl
  · split
    · rfl
    · split <;> rfl

/-- The method `handleUsePkceChange` does not change the step. -/
theorem handleUsePkceChange_currentStep (checked : Bool) (c : Component) (s : SessionStorage) :
    (handleUsePkceChange checked c s).1.currentStep = c.currentStep := by
  cases checked <;> rfl

/-- The method `generatePkce` does not change the step. -/
theorem generatePkce_currentStep (codec : JsonCodec) (gen : Outcome PkceResult)
    (c : Component) (s : SessionStorage) :
    (generatePkce codec gen c s).1.comp.currentStep = c.currentStep := by
  unfold generatePkce
  cases gen with
  | resolved result => cases hs : result.isSuccess <;> simp only [hs] <;> rfl
  | thrown error => rfl

/-- What the URL request leaves unchanged, and the calls it adds. -/
theorem requestAuthorizationUrl_frame (url : Bool → String → String → Outcome String)
    (codeChallenge codeChallengeMethod : String) (r : Result) :
    (requestAuthorizationUrl url codeChallenge codeChallengeMethod r).comp.currentStep
      = r.comp.currentStep
    ∧ (requestAuthorizationUrl url codeChallenge codeChallengeMethod r).comp.pkceData
      = r.comp.pkceData
    ∧ (requestAuthorizationUrl url codeChallenge codeChallengeMethod r).comp.codeVerifier
      = r.comp.codeVerifier
    ∧ (requestAuthorizationUrl url codeChallenge codeChallengeMethod r).storage = r.storage
    ∧ (requestAuthorizationUrl url codeChallenge codeChallengeMethod r).calls
      = r.calls ++ Call.generateAuthorizationUrlWithPkce r.comp.usePkce codeChallenge
          codeChallengeMethod
        :: navigationCalls (url r.comp.usePkce codeChallenge codeChallengeMethod) := by
  unfold requestAuthorizationUrl
  cases url r.comp.usePkce codeChallenge codeChallengeMethod <;>
    exact ⟨rfl, rfl, rfl, rfl, rfl⟩

/-- The method `handleAuthorize` does not change the step. -/
theorem handleAuthorize_currentStep (codec : JsonCodec) (gen : Outcome PkceResult)
    (url : Bool → String → String → Outcome String) (c : Component) (s : SessionStorage) :
    (handleAuthorize codec gen url c s).comp.currentStep = c.currentStep := by
  unfold handleAuthorize
  cases hp : c.usePkce with
  | false =>
    simp only [Bool.false_eq_true, if_false]
    exact (requestAuthorizationUrl_frame url "" "" _).1
  | true =>
    simp only [if_true]
    have hg := generatePkce_currentStep codec gen c s
    rcases hgen : generatePkce codec gen c s with ⟨r, ret⟩
    rw [hgen] at hg
    cases ret with
    | ok pkceData =>
      simp only
      rw [(requestAuthorizationUrl_frame url _ _ r).1]
      exact hg
    | error e => exact hg

/-- The method `handleCreateAccount` does not change the step. -/
theorem handleCreateAccount_currentStep
    (create : String → String → String → Outcome AccountResult) (c : Component)
    (s : SessionStorage) :
    (handleCreateAccount create c s).comp.currentStep = c.currentStep := by
  unfold handleCreateAccount
  split
  · split <;> rfl
  · rfl

/-- An operation that is not a navigation keeps the step or sets it to 3 or 4. -/
theorem apply_currentStep (codec : JsonCodec) (op : Op) (c : Component) (s : SessionStorage)
    (hnav : op.isNavigation = false) :
    (op.apply codec c s).1.currentStep = c.currentStep
    ∨ (op.apply codec c s).1.currentStep = 3
    ∨ (op.apply codec c s).1.currentStep = 4 := by
  cases op with
  | retrievePkceData => exact Or.inl (retrievePkceData_currentStep codec c s)
  | getUrlParams ref => simp [Op.isNavigation] at hnav
  | handleNextTab tab => simp [Op.isNavigation] at hnav
  | handlePreviousTab tab => simp [Op.isNavigation] at hnav
  | handleAuthCodeChange value => exact Or.inl rfl
  | handleUsePkceChange checked => exact Or.inl (handleUsePkceChange_currentStep checked c s)
  | handleAuthorize gen url => exact Or.inl (handleAuthorize_currentStep codec gen url c s)
  | handleExchangeCode exch =>
    have h := exchange_currentStep codec exch c s
    simp only [Op.apply]
    split at h
    · exact Or.inl h
    · exact Or.inr (Or.inl h)
  | handleFetchIdentity limits =>
    have h := fetch_currentStep limits c s
    simp only [Op.apply]
    split at h
    · exact Or.inl h
    · exact Or.inr (Or.inr h)
  | handleCreateAccount create => exact Or.inl (handleCreateAccount_currentStep create c s)

/-- A lower bound of at most 3 on the step is kept by every sequence of
operations without navigation. -/
theorem run_currentStep_ge (codec : JsonCodec) (ops : List Op) :
    ∀ (c : Component) (s : SessionStorage) (n : Nat),
      (∀ op ∈ ops, op.isNavigation = false) → n ≤ 3 → n ≤ c.currentStep →
      n ≤ (run codec ops c s).1.currentStep := by
  induction ops with
  | nil => intro c s n _ _ h; exact h
  | cons op ops ih =>
    intro c s n hnav hn h
    unfold run
    apply ih _ _ n (fun o ho => hnav o (List.mem_cons_of_mem _ ho)) hn
    rcases apply_currentStep codec op c s (hnav op (List.mem_cons_self _ _)) with h1 | h1 | h1
    · omega
    · omega
    · omega

/-! ## Step transitions -/

/-- C6 fails as stated: a successful `handleExchangeCode` invoked at step 4
lowers `currentStep` to 3; invoked at step 1 (not `AwaitingCode`) it advances
to 3; a successful `handleFetchIdentity` invoked at step 1 advances to 4; and
`handlePreviousTab` lowers `currentStep` from 2 to 1. -/
theorem currentStep_not_monotonic :
    (handleExchangeCode plainJson grantTokens atComplete SessionStorage.empty).comp.currentStep
      < atComplete.currentStep
    ∧ (Component.init none).currentStep = 1
    ∧ (handleExchangeCode plainJson grantTokens (Component.init none)
        SessionStorage.empty).comp.currentStep = 3
    ∧ (handleFetchIdentity limitsOk (Component.init none)
        SessionStorage.empty).comp.currentStep = 4
    ∧ (handlePreviousTab "step2" atCode).currentStep < atCode.currentStep := by
  decide

/-- C6 (amended): `handleExchangeCode` changes `currentStep` only when the
backend reports success, and then sets it to 3 whatever step it was invoked at;
`handleFetchIdentity` changes it only when `getLimits` resolves to a record
whose `error` is not truthy, and then sets it to 4 whatever step it was invoked
at; on failure both leave it unchanged. `handleAuthorize`, `generatePkce`,
`handleUsePkceChange`, `handleAuthCodeChange`, `handleCreateAccount` and
`retrievePkceData` never change it. Hence over every sequence of these
operations that starts at a step of at most 3, `currentStep` never falls below
the step it started from. The tab handlers set `currentStep` to the number of
the adjacent tab (`handlePreviousTab` lowers it) and `getUrlParams` sets it to
2 when the URL carries a code. -/
theorem currentStep_transitions :
    (∀ (codec : JsonCodec) (exch : ExchangeParams → Outcome ExchangeResult) (c : Component)
        (s : SessionStorage),
        (handleExchangeCode codec exch c s).comp.currentStep
          = if exchangeFailed (exch (requestParams c)) = true then c.currentStep else 3)
    ∧ (∀ (limits : String → String → Outcome JsObject) (c : Component) (s : SessionStorage),
        (handleFetchIdentity limits c s).comp.currentStep
          = if fetchFailed (limits c.accessToken c.instanceUrl) = true then c.currentStep
            else 4)
    ∧ (∀ (codec : JsonCodec) (gen : Outcome PkceResult)
        (url : Bool → String → String → Outcome String) (c : Component) (s : SessionStorage),
        (handleAuthorize codec gen url c s).comp.currentStep = c.currentStep)
    ∧ (∀ (codec : JsonCodec) (gen : Outcome PkceResult) (c : Component) (s : SessionStorage),
        (generatePkce codec gen c s).1.comp.currentStep = c.currentStep)
    ∧ (∀ (checked : Bool) (c : Component) (s : SessionStorage),
        (handleUsePkceChange checked c s).1.currentStep = c.currentStep)
    ∧ (∀ (value : String) (c : Component),
        (handleAuthCodeChange value c).currentStep = c.currentStep)
    ∧ (∀ (create : String → String → String → Outcome AccountResult) (c : Component)
        (s : SessionStorage),
        (handleCreateAccount create c s).comp.currentStep = c.currentStep)
    ∧ (∀ (codec : JsonCodec) (c : Component) (s : SessionStorage),
        (retrievePkceData codec c s).currentStep = c.currentStep)
    ∧ (∀ (codec : JsonCodec) (ops : List Op) (c : Component) (s : SessionStorage),
        (∀ op ∈ ops, op.isNavigation = false) → c.currentStep ≤ 3 →
        c.currentStep ≤ (run codec ops c s).1.currentStep)
    ∧ (∀ c : Component,
        (handleNextTab "step1" c).currentStep = 2
        ∧ (handleNextTab "step2" c).currentStep = 3
        ∧ (handleNextTab "step3" c).currentStep = 4
        ∧ (handlePreviousTab "step2" c).currentStep = 1
        ∧ (handlePreviousTab "step3" c).currentStep = 2
        ∧ (handlePreviousTab "step4" c).currentStep = 3)
    ∧ (∀ (codec : JsonCodec) (code : String) (c : Component) (s : SessionStorage),
        code ≠ "" → (getUrlParams codec (some { code := some code }) c s).currentStep = 2) := by
  refine ⟨exchange_currentStep, fetch_currentStep, handleAuthorize_currentStep,
    generatePkce_currentStep, handleUsePkceChange_currentStep, fun _ _ => rfl,
    handleCreateAccount_currentStep, retrievePkceData_currentStep, ?_, ?_, ?_⟩
  · intro codec ops c s hnav h3
    exact run_currentStep_ge codec ops c s c.currentStep hnav h3 (Nat.le_refl _)
  · intro c
    refine ⟨?_, ?_, ?_, ?_, ?_, ?_⟩ <;> rfl
  · intro codec code c s hcode
    unfold getUrlParams
    simp only [hcode, if_false]
    rw [retrievePkceData_currentStep]

/-- Witness of C6 (amended): a failed exchange, a successful exchange and a
successful identity fetch, run from step 2. -/
theorem currentStep_transitions_witness :
    (∀ op ∈ [Op.handleExchangeCode rejectCode, Op.handleExchangeCode grantTokens,
        Op.handleFetchIdentity limitsOk], op.isNavigation = false)
    ∧ atCode.currentStep ≤ 3
    ∧ atCode.currentStep
      ≤ (run plainJson [Op.handleExchangeCode rejectCode, Op.handleExchangeCode grantTokens,
          Op.handleFetchIdentity limitsOk] atCode SessionStorage.empty).1.currentStep
    ∧ (run plainJson [Op.handleExchangeCode rejectCode, Op.handleExchangeCode grantTokens,
          Op.handleFetchIdentity limitsOk] atCode SessionStorage.empty).1.currentStep = 4 :=
  ⟨by simp [Op.isNavigation], by decide,
   currentStep_transitions.2.2.2.2.2.2.2.2.1 plainJson
     [Op.handleExchangeCode rejectCode, Op.handleExchangeCode grantTokens,
      Op.handleFetchIdentity limitsOk] atCode SessionStorage.empty
     (by simp [Op.isNavigation]) (by decide),
   by decide⟩

/-! ## Validation of the code -/

/-- C7 fails as stated: with an empty `authCode` and a backend that reports
success, `handleExchangeCode` advances to step 3 and stores the token. -/
theorem empty_code_not_rejected :
    atEmptyCode.authCode = ""
    ∧ atEmptyCode.currentStep = 2
    ∧ (handleExchangeCode plainJson grantTokens atEmptyCode SessionStorage.empty).comp.currentStep
      = 3
    ∧ (handleExchangeCode plainJson grantTokens atEmptyCode SessionStorage.empty).comp.accessToken
      = "tok"
    ∧ (handleExchangeCode plainJson grantTokens atEmptyCode SessionStorage.empty).comp.response
      = "Successfully exchanged authorization code for access token"
    ∧ ¬ ((handleExchangeCode plainJson grantTokens atEmptyCode
            SessionStorage.empty).comp.currentStep = atEmptyCode.currentStep
        ∧ (handleExchangeCode plainJson grantTokens atEmptyCode
            SessionStorage.empty).comp.accessToken = atEmptyCode.accessToken
        ∧ (handleExchangeCode plainJson grantTokens atEmptyCode
            SessionStorage.empty).comp.instanceUrl = atEmptyCode.instanceUrl) := by
  decide

/-- C7 (amended): with an empty `authCode`, `handleExchangeCode` does no
validation of its own: it sends the empty code to the backend. When the backend
rejects it (a result with `isSuccess` false, or a rejection), `response` is an
error message and `currentStep`, `accessToken` and `instanceUrl` are unchanged;
when the backend reports success the flow advances to step 3. -/
theorem empty_code_decided_by_backend (codec : JsonCodec)
    (exch : ExchangeParams → Outcome ExchangeResult) (c : Component) (s : SessionStorage)
    (hempty : c.authCode = "") :
    (∃ verifier, (handleExchangeCode codec exch c s).calls
        = [Call.exchangeCodeForTokenWithPkce { code := "", codeVerifier := verifier }])
    ∧ (exchangeFailed (exch (requestParams c)) = true →
        IsErrorMessage (handleExchangeCode codec exch c s).comp.response
        ∧ (handleExchangeCode codec exch c s).comp.currentStep = c.currentStep
        ∧ (handleExchangeCode codec exch c s).comp.accessToken = c.accessToken
        ∧ (handleExchangeCode codec exch c s).comp.instanceUrl = c.instanceUrl)
    ∧ (exchangeFailed (exch (requestParams c)) = false →
        (handleExchangeCode codec exch c s).comp.currentStep = 3) := by
  refine ⟨⟨(requestParams c).codeVerifier, ?_⟩, ?_, ?_⟩
  · rw [exchange_calls]
    simp [requestParams, hempty]
  · intro hfail
    obtain ⟨_, h2, h3⟩ := exchange_failed codec exch c s hfail
    refine ⟨h3, ?_, ?_, ?_⟩ <;> rw [h2]
  · intro hok
    rw [exchange_currentStep, hok]
    rfl

/-- Witness of C7 (amended): the empty code rejected by the backend. -/
theorem empty_code_decided_by_backend_witness :
    atEmptyCode.authCode = ""
    ∧ exchangeFailed (rejectCode (requestParams atEmptyCode)) = true
    ∧ (handleExchangeCode plainJson rejectCode atEmptyCode SessionStorage.empty).comp.currentStep
      = atEmptyCode.currentStep :=
  ⟨rfl, rfl,
   ((empty_code_decided_by_backend plainJson rejectCode atEmptyCode SessionStorage.empty
      rfl).2.1 rfl).2.1⟩

/-! ## Verifier at exchange -/

/-- C8 fails as stated: with `usePkce` true and an empty `codeVerifier`, the
parameters passed to `exchangeCodeForTokenWithPkce` have no `codeVerifier`. -/
theorem pkce_on_without_verifier :
    pkceOnNoVerifier.usePkce = true
    ∧ (handleExchangeCode plainJson grantTokens pkceOnNoVerifier SessionStorage.empty).calls
      = [Call.exchangeCodeForTokenWithPkce { code := "abc123", codeVerifier := none }]
    ∧ (handleExchangeCode plainJson grantTokens pkceOnNoVerifier SessionStorage.empty).calls
      ≠ [Call.exchangeCodeForTokenWithPkce
          { code := "abc123", codeVerifier := some pkceOnNoVerifier.codeVerifier }] := by
  decide

/-- C8 (amended): the parameter object that `handleExchangeCode` passes to
`exchangeCodeForTokenWithPkce` contains a `codeVerifier` field, equal to the
component's `codeVerifier`, when `usePkce` is true and `codeVerifier` is
non-empty; when `usePkce` is false or `codeVerifier` is empty it contains only
the code. -/
theorem exchange_params_verifier (codec : JsonCodec)
    (exch : ExchangeParams → Outcome ExchangeResult) (c : Component) (s : SessionStorage) :
    (c.usePkce = true → c.codeVerifier ≠ "" →
        (handleExchangeCode codec exch c s).calls
          = [Call.exchangeCodeForTokenWithPkce
              { code := c.authCode, codeVerifier := some c.codeVerifier }])
    ∧ (c.usePkce = false ∨ c.codeVerifier = "" →
        (handleExchangeCode codec exch c s).calls
          = [Call.exchangeCodeForTokenWithPkce { code := c.authCode, codeVerifier := none }]) := by
  rw [exchange_calls]
  constructor
  · intro hp hv
    rw [requestParams_verifier c hp hv]
  · intro h
    rcases h with h | h <;> simp [requestParams, h]

/-- Witness of C8 (amended): PKCE on with the verifier `v1`. -/
theorem exchange_params_verifier_witness :
    atCodeWithPkce.usePkce = true
    ∧ atCodeWithPkce.codeVerifier ≠ ""
    ∧ (handleExchangeCode plainJson grantTokens atCodeWithPkce storedPkce).calls
      = [Call.exchangeCodeForTokenWithPkce { code := "abc123", codeVerifier := some "v1" }] :=
  ⟨rfl, by decide,
   (exchange_params_verifier plainJson grantTokens atCodeWithPkce storedPkce).1 rfl
     (by decide)⟩

/-! ## Identity fetch -/

/-- C9 fails as stated: when `getLimits` resolves to a record that has an
`error` field whose value is the empty string, `handleFetchIdentity` takes the
success path: `currentStep` becomes 4 and `identity` becomes that record. -/
theorem falsy_error_field_is_success :
    limitsEmptyError atIdentity.accessToken atIdentity.instanceUrl
      = .resolved [("error", .str "")]
    ∧ JsObject.field [("error", .str "")] "error" = some (.str "")
    ∧ atIdentity.currentStep = 3
    ∧ (handleFetchIdentity limitsEmptyError atIdentity SessionStorage.empty).comp.currentStep
      = 4
    ∧ (handleFetchIdentity limitsEmptyError atIdentity SessionStorage.empty).comp.identity.field
        "error" = some (.str "")
    ∧ (handleFetchIdentity limitsEmptyError atIdentity SessionStorage.empty).comp.response
      = "Successfully fetched identity information"
    ∧ (handleFetchIdentity limitsEmptyError atIdentity SessionStorage.empty).comp.currentStep
      ≠ atIdentity.currentStep := by
  refine ⟨rfl, rfl, rfl, rfl, rfl, rfl, ?_⟩
  decide

/-- C9 (amended): for every component state and every outcome of `getLimits`,
`handleFetchIdentity` leaves `accessToken` and `instanceUrl` (and session
storage) unchanged. When the outcome is a record whose `error` field is absent
or falsy, `identity` equals the returned record and `currentStep` becomes 4;
when it is a record whose `error` field is truthy, or a rejection, `identity`
and `currentStep` are unchanged and `response` is an error message. -/
theorem handleFetchIdentity_keeps_tokens (limits : String → String → Outcome JsObject)
    (c : Component) (s : SessionStorage) :
    (handleFetchIdentity limits c s).comp.accessToken = c.accessToken
    ∧ (handleFetchIdentity limits c s).comp.instanceUrl = c.instanceUrl
    ∧ (handleFetchIdentity limits c s).storage = s
    ∧ (∀ limitsData, limits c.accessToken c.instanceUrl = .resolved limitsData →
        truthy (limitsData.field "error") = false →
        (handleFetchIdentity limits c s).comp.identity = limitsData
        ∧ (handleFetchIdentity limits c s).comp.currentStep = 4)
    ∧ (fetchFailed (limits c.accessToken c.instanceUrl) = true →
        (handleFetchIdentity limits c s).comp.identity = c.identity
        ∧ (handleFetchIdentity limits c s).comp.currentStep = c.currentStep
        ∧ IsErrorMessage (handleFetchIdentity limits c s).comp.response) := by
  have hstore : (handleFetchIdentity limits c s).storage = s := by
    unfold handleFetchIdentity
    split
    · split <;> rfl
    · rfl
  cases h : fetchFailed (limits c.accessToken c.instanceUrl) with
  | true =>
    obtain ⟨h1, h2⟩ := fetch_failed limits c s h
    refine ⟨by rw [h1], by rw [h1], hstore, ?_, ?_⟩
    · intro limitsData hout ht
      rw [hout] at h
      simp [fetchFailed, ht] at h
    · intro _
      exact ⟨by rw [h1], by rw [h1], h2⟩
  | false =>
    obtain ⟨limitsData, hout, _, hc⟩ := fetch_succeeded limits c s h
    obtain ⟨f1, f2, f3, f4, _⟩ := setActiveTab_frame "step4" { c with
          request := fetchRequestText c
          identity := limitsData
          response := "Successfully fetched identity information"
          currentStep := 4 }
    refine ⟨by rw [hc, f2], by rw [hc, f3], hstore, ?_, ?_⟩
    · intro limitsData2 hout2 _
      rw [hout] at hout2
      cases hout2
      exact ⟨by rw [hc, f4], by rw [hc, f1]⟩
    · intro hcontra
      cases hcontra

/-- Witness of C9 (amended): a record without `error` is stored as identity, and
a record whose `error` is a message leaves the step at 3. -/
theorem handleFetchIdentity_keeps_tokens_witness :
    truthy (JsObject.field [("DailyApiRequests", .obj [("Max", .num 15000)])] "error") = false
    ∧ (handleFetchIdentity limitsOk atIdentity SessionStorage.empty).comp.currentStep = 4
    ∧ fetchFailed (limitsError atIdentity.accessToken atIdentity.instanceUrl) = true
    ∧ (handleFetchIdentity limitsError atIdentity SessionStorage.empty).comp.currentStep
      = atIdentity.currentStep :=
  ⟨by decide,
   ((handleFetchIdentity_keeps_tokens limitsOk atIdentity SessionStorage.empty).2.2.2.1
      _ rfl (by decide)).2,
   by decide,
   ((handleFetchIdentity_keeps_tokens limitsError atIdentity SessionStorage.empty).2.2.2.2
      (by decide)).2.1⟩

/-! ## Authorization request without PKCE -/

/-- C10: with `usePkce` false, `handleAuthorize` does not call
`generatePkceData`; its only backend call is
`generateAuthorizationUrlWithPkce(false, "", "")`, followed by the navigation
when a URL was returned; `pkceData`, `codeVerifier` and session storage are
unchanged, whatever the backend returns. -/
theorem handleAuthorize_without_pkce (codec : JsonCodec) (gen : Outcome PkceResult)
    (url : Bool → String → String → Outcome String) (c : Component) (s : SessionStorage)
    (hp : c.usePkce = false) :
    Call.generatePkceData ∉ (handleAuthorize codec gen url c s).calls
    ∧ (handleAuthorize codec gen url c s).calls
      = Call.generateAuthorizationUrlWithPkce false "" "" :: navigationCalls (url false "" "")
    ∧ (handleAuthorize codec gen url c s).comp.pkceData = c.pkceData
    ∧ (handleAuthorize codec gen url c s).comp.codeVerifier = c.codeVerifier
    ∧ (handleAuthorize codec gen url c s).storage = s
    ∧ (handleAuthorize codec gen url c s).storage.getItem "pkceData" = s.getItem "pkceData" := by
  unfold handleAuthorize
  simp only [hp, Bool.false_eq_true, if_false]
  obtain ⟨_, h2, h3, h4, h5⟩ :=
    requestAuthorizationUrl_frame url "" "" { comp := c, storage := s, calls := [] }
  simp only [hp, List.nil_append] at h5
  rw [h2, h3, h4, h5]
  refine ⟨?_, rfl, rfl, rfl, rfl, rfl⟩
  cases url false "" "" <;> simp [navigationCalls]

/-- Witness of C10: the initial component (PKCE off) asks for the URL. -/
theorem handleAuthorize_without_pkce_witness :
    (Component.init none).usePkce = false
    ∧ (handleAuthorize plainJson (.resolved samplePkceResult) sampleUrl (Component.init none)
        storedPkce).calls
      = [Call.generateAuthorizationUrlWithPkce false "" "",
         Call.navigate "https://login.example/authorize"] :=
  ⟨rfl,
   (handleAuthorize_without_pkce plainJson (.resolved samplePkceResult) sampleUrl
      (Component.init none) storedPkce rfl).2.1⟩

end OAuthWebFlow
